import Mathlib

/-!
Verification of the VizEngine rendering core against its specification.

The definitions below are a shallow embedding of the C++ sources under
VizEngine/src/VizEngine/Renderer: Bloom.cpp, ForwardRenderPath.cpp,
PBRMaterial.cpp, RenderMaterial.cpp, PostProcessPipeline.cpp,
SceneRenderer.cpp and ShadowPass.cpp.  GPU handles (std::shared_ptr
textures and framebuffers) are modelled as symbolic handles with decidable
equality; float arithmetic is modelled exactly over the rationals (and over
the reals where square roots occur); side-effecting render calls are
modelled as explicit command traces.
-/

/-- Texture handles.  A Bloom instance owns three internal textures
(m_ExtractTexture, m_BlurTexture1, m_BlurTexture2), created as three
distinct allocations in the constructor; any other texture reaching the
Bloom interface is an external handle.  A null shared_ptr is modelled as
the surrounding Option being none. -/
inductive TexH where
  | external (id : Nat)
  | extractTex
  | blurTex1
  | blurTex2
deriving DecidableEq

/-- Construction environment of a Bloom instance: which of the three
framebuffers report complete and which of the two shaders load as valid
(Bloom.cpp, constructor). -/
structure BloomEnv where
  extractFBComplete : Bool
  blurFB1Complete : Bool
  blurFB2Complete : Bool
  extractShaderValid : Bool
  blurShaderValid : Bool
deriving DecidableEq

/-- Mutable scalar state of a Bloom instance (Bloom.h): m_Threshold,
m_Knee, m_Intensity, m_BlurPasses (a C++ int) and the validity flag. -/
structure BloomState where
  threshold : ℚ
  knee : ℚ
  intensity : ℚ
  blurPasses : ℤ
  isValid : Bool
deriving DecidableEq

/-- Bloom constructor (Bloom.cpp).  Default member values are threshold
1.0, knee 0.1, intensity 0.04, blurPasses 5, isValid false; the
constructor first checks all three framebuffers for completeness, then
both shaders for validity, and only marks the instance valid when every
check passes. -/
def BloomState.init (env : BloomEnv) : BloomState :=
  let base : BloomState :=
    { threshold := 1, knee := 1/10, intensity := 1/25, blurPasses := 5, isValid := false }
  if !(env.extractFBComplete && env.blurFB1Complete && env.blurFB2Complete) then
    base
  else if !(env.extractShaderValid && env.blurShaderValid) then
    base
  else
    { base with isValid := true }

/-- Bloom::SetThreshold (Bloom.h). -/
def BloomState.setThreshold (b : BloomState) (t : ℚ) : BloomState :=
  { b with threshold := t }

/-- Bloom::SetKnee (Bloom.h). -/
def BloomState.setKnee (b : BloomState) (k : ℚ) : BloomState :=
  { b with knee := k }

/-- Bloom::SetIntensity (Bloom.h). -/
def BloomState.setIntensity (b : BloomState) (i : ℚ) : BloomState :=
  { b with intensity := i }

/-- Bloom::SetBlurPasses (Bloom.h). -/
def BloomState.setBlurPasses (b : BloomState) (n : ℤ) : BloomState :=
  { b with blurPasses := n }

/-- The public mutating operations on a Bloom instance (Bloom.h exposes
only the four setters; Process does not write any member). -/
inductive BloomOp where
  | setThreshold (t : ℚ)
  | setKnee (k : ℚ)
  | setIntensity (i : ℚ)
  | setBlurPasses (n : ℤ)
deriving DecidableEq

/-- Application of one public operation to the state. -/
def BloomState.applyOp (b : BloomState) : BloomOp → BloomState
  | BloomOp.setThreshold t => b.setThreshold t
  | BloomOp.setKnee k => b.setKnee k
  | BloomOp.setIntensity i => b.setIntensity i
  | BloomOp.setBlurPasses n => b.setBlurPasses n

/-- Application of a sequence of public operations. -/
def BloomState.applyOps (b : BloomState) : List BloomOp → BloomState
  | [] => b
  | op :: ops => (b.applyOp op).applyOps ops

/-- One iteration of the blur loop in Bloom::Process: given the current
source texture, sourceIsBlur1 decides which blur buffer receives the
horizontal pass (the intermediate) and which receives the vertical pass
(the final). -/
structure BlurIter where
  source : TexH
  intermediateTex : TexH
  finalTex : TexH
deriving DecidableEq

/-- Target selection of one blur iteration (Bloom.cpp, loop body):
if the source is Blur1, horizontal writes Blur2 and vertical writes
Blur1; otherwise horizontal writes Blur1 and vertical writes Blur2. -/
def blurStep (src : TexH) : BlurIter :=
  let sourceIsBlur1 := src = TexH.blurTex1
  { source := src
    intermediateTex := if sourceIsBlur1 then TexH.blurTex2 else TexH.blurTex1
    finalTex := if sourceIsBlur1 then TexH.blurTex1 else TexH.blurTex2 }

/-- The sequence of blur iterations executed by the loop in
Bloom::Process, starting from the given source texture; after each
iteration the source becomes that iteration's final texture. -/
def blurIters : Nat → TexH → List BlurIter
  | 0, _ => []
  | n + 1, src =>
    let it := blurStep src
    it :: blurIters n it.finalTex

/-- The two draw sub-passes of one blur iteration, as pairs of
(texture read, texture backing the framebuffer written): the horizontal
pass reads the source and writes the intermediate framebuffer, the
vertical pass reads the intermediate texture and writes the final
framebuffer. -/
def BlurIter.subPasses (it : BlurIter) : List (TexH × TexH) :=
  [(it.source, it.intermediateTex), (it.intermediateTex, it.finalTex)]

/-- All (read, write) blur sub-passes of a Process call with n loop
iterations; the first source is the extract texture. -/
def blurSubPasses (n : Nat) : List (TexH × TexH) :=
  List.foldr (fun it acc => it.subPasses ++ acc) [] (blurIters n TexH.extractTex)

/-- The texture returned by the blur loop: the running source after n
iterations (the final texture of the last iteration, or the initial
source when n = 0). -/
def blurResultTex : Nat → TexH → TexH
  | 0, src => src
  | n + 1, src => blurResultTex n (blurStep src).finalTex

/-- Bloom::Process (Bloom.cpp).  Returns the result handle together with
the trace of draw passes as (texture read, texture backing the
framebuffer written) pairs: on an invalid instance it returns the input
unchanged with no passes; on a null input it returns null with no
passes; otherwise it runs the extract pass (reading the input, writing
the extract framebuffer) followed by the blur loop, whose iteration
count is the stored int blurPasses (no iterations when that is not
positive) and returns the final source texture. -/
def BloomState.process (b : BloomState) (hdrTexture : Option TexH) :
    Option TexH × List (TexH × TexH) :=
  if b.isValid = false then
    (hdrTexture, [])
  else
    match hdrTexture with
    | none => (none, [])
    | some t =>
      let n := b.blurPasses.toNat
      (some (blurResultTex n TexH.extractTex),
        (t, TexH.extractTex) :: blurSubPasses n)

/-- Claim C1 exactly as stated: in every iteration both the intermediate
and the final target are a blur buffer different from the current
source. -/
def bloomPingPongAsStated (n : Nat) : Prop :=
  ∀ it ∈ blurIters n TexH.extractTex,
    (it.intermediateTex = TexH.blurTex1 ∨ it.intermediateTex = TexH.blurTex2) ∧
    (it.finalTex = TexH.blurTex1 ∨ it.finalTex = TexH.blurTex2) ∧
    it.intermediateTex ≠ it.source ∧ it.finalTex ≠ it.source

/-- Bloom construction environment in which all framebuffers are complete
and all shaders load (the nominal case). -/
def validBloomEnv : BloomEnv :=
  { extractFBComplete := true, blurFB1Complete := true, blurFB2Complete := true
    extractShaderValid := true, blurShaderValid := true }

/-- Bloom construction environment with a forced shader-load failure (the
framebuffers are complete but the extract shader is invalid). -/
def invalidBloomEnv : BloomEnv :=
  { extractFBComplete := true, blurFB1Complete := true, blurFB2Complete := true
    extractShaderValid := false, blurShaderValid := true }

/-- Claim C10 exactly as stated in its second half: Process returns its
argument unchanged only when the instance is invalid. -/
def bloomOnlyInvalidReturnsInput : Prop :=
  ∀ (b : BloomState) (x : Option TexH), (b.process x).1 = x → b.isValid = false

/-! Material parameter system (MaterialParameter.h, RenderMaterial.cpp,
PBRMaterial.cpp). -/

/-- Rational model of glm::vec2. -/
def Vec2Q := ℚ × ℚ
deriving DecidableEq

/-- Rational model of glm::vec3. -/
def Vec3Q := ℚ × ℚ × ℚ
deriving DecidableEq

/-- Rational model of glm::vec4. -/
def Vec4Q := ℚ × ℚ × ℚ × ℚ
deriving DecidableEq

/-- Rational model of glm::mat3 (three columns). -/
def Mat3Q := Vec3Q × Vec3Q × Vec3Q
deriving DecidableEq

/-- Rational model of glm::mat4 (four columns). -/
def Mat4Q := Vec4Q × Vec4Q × Vec4Q × Vec4Q
deriving DecidableEq

/-- MaterialParameterValue (MaterialParameter.h): the std::variant over
float, int, bool, vec2, vec3, vec4, mat3, mat4, texture handle. -/
inductive MaterialParameterValue where
  | f (x : ℚ)
  | i (z : ℤ)
  | b (v : Bool)
  | v2 (v : Vec2Q)
  | v3 (v : Vec3Q)
  | v4 (v : Vec4Q)
  | m3 (m : Mat3Q)
  | m4 (m : Mat4Q)
  | tex (t : Option TexH)
deriving DecidableEq

/-- TextureSlot (MaterialParameter.h): uniform name, texture handle,
integer texture unit, cubemap flag. -/
structure TextureSlot where
  UniformName : String
  TextureRef : Option TexH
  Slot : ℤ
  IsCubemap : Bool
deriving DecidableEq

/-- Standard texture slot constants (OpenGL/Commons.h). -/
def TextureSlots.Albedo : ℤ := 0

def TextureSlots.Normal : ℤ := 1

def TextureSlots.MetallicRoughness : ℤ := 2

def TextureSlots.AO : ℤ := 3

def TextureSlots.Emissive : ℤ := 4

def TextureSlots.Irradiance : ℤ := 5

def TextureSlots.Prefiltered : ℤ := 6

def TextureSlots.BRDF_LUT : ℤ := 7

def TextureSlots.ShadowMap : ℤ := 8

def TextureSlots.HDRBuffer : ℤ := 9

def TextureSlots.BloomTexture : ℤ := 10

def TextureSlots.ColorGradingLUT : ℤ := 11

/-- Keyed write into the m_Parameters map (std::unordered_map
operator[]= semantics): update the entry with this name when present,
otherwise add one. -/
def paramsSet (ps : List (String × MaterialParameterValue)) (name : String)
    (v : MaterialParameterValue) : List (String × MaterialParameterValue) :=
  match ps with
  | [] => [(name, v)]
  | (k, w) :: rest =>
    if k = name then (k, v) :: rest else (k, w) :: paramsSet rest name v

/-- Keyed lookup in the m_Parameters map. -/
def paramsGet : List (String × MaterialParameterValue) → String →
    Option MaterialParameterValue
  | [], _ => none
  | (k, w) :: rest, name => if k = name then some w else paramsGet rest name

/-- RenderMaterial::SetTexture (RenderMaterial.cpp) on the texture-slot
list: scan for an entry with this uniform name and update its texture
handle, slot index and cubemap flag in place, otherwise append a new
entry at the end. -/
def setTextureSlots (slots : List TextureSlot) (name : String) (t : Option TexH)
    (slot : ℤ) (isCubemap : Bool) : List TextureSlot :=
  match slots with
  | [] => [⟨name, t, slot, isCubemap⟩]
  | ts :: rest =>
    if ts.UniformName = name then
      ⟨ts.UniformName, t, slot, isCubemap⟩ :: rest
    else
      ts :: setTextureSlots rest name t slot isCubemap

/-- First slot entry with the given uniform name. -/
def findSlot : List TextureSlot → String → Option TextureSlot
  | [], _ => none
  | ts :: rest, name => if ts.UniformName = name then some ts else findSlot rest name

/-- One RenderMaterial::SetTexture call, for reasoning over call
sequences. -/
structure SetTexCall where
  name : String
  tex : Option TexH
  slot : ℤ
  cubemap : Bool

/-- Fold of a sequence of SetTexture calls over the slot list. -/
def applySetTextures : List SetTexCall → List TextureSlot → List TextureSlot
  | [], slots => slots
  | c :: cs, slots => applySetTextures cs (setTextureSlots slots c.name c.tex c.slot c.cubemap)

/-- glm::clamp over the rationals: min(max(x, lo), hi). -/
def glmClamp (x lo hi : ℚ) : ℚ := min (max x lo) hi

/-- State of a PBRMaterial (PBRMaterial.h on top of RenderMaterial.h):
the parameter map and texture-slot list of the base class plus the
cached PBR values.  The mAlpha and mLowerHemisphereIntensity fields back
the SetAlpha and SetLowerHemisphereIntensity setters, which are called
from ForwardRenderPath.cpp but whose definitions are not in the sources;
they are modelled from the spec. -/
structure PBRMaterialState where
  params : List (String × MaterialParameterValue)
  textureSlots : List TextureSlot
  mAlbedo : Vec3Q
  mMetallic : ℚ
  mRoughness : ℚ
  mAO : ℚ
  mAlpha : ℚ
  mLowerHemisphereIntensity : ℚ
  mUseIBL : Bool
  mUseShadows : Bool
  mHasAlbedoTexture : Bool
  mHasNormalTexture : Bool
deriving DecidableEq

/-- RenderMaterial::SetFloat on the PBR state. -/
def PBRMaterialState.setFloatP (m : PBRMaterialState) (name : String) (v : ℚ) :
    PBRMaterialState :=
  { m with params := paramsSet m.params name (MaterialParameterValue.f v) }

/-- RenderMaterial::SetBool on the PBR state. -/
def PBRMaterialState.setBoolP (m : PBRMaterialState) (name : String) (v : Bool) :
    PBRMaterialState :=
  { m with params := paramsSet m.params name (MaterialParameterValue.b v) }

/-- RenderMaterial::SetVec3 on the PBR state. -/
def PBRMaterialState.setVec3P (m : PBRMaterialState) (name : String) (v : Vec3Q) :
    PBRMaterialState :=
  { m with params := paramsSet m.params name (MaterialParameterValue.v3 v) }

/-- RenderMaterial::SetTexture on the PBR state. -/
def PBRMaterialState.setTextureP (m : PBRMaterialState) (name : String)
    (t : Option TexH) (slot : ℤ) (isCubemap : Bool) : PBRMaterialState :=
  { m with textureSlots := setTextureSlots m.textureSlots name t slot isCubemap }

/-- Bool-typed parameter read, for stating the use-flag properties. -/
def PBRMaterialState.getBool (m : PBRMaterialState) (name : String) : Option Bool :=
  match paramsGet m.params name with
  | some (MaterialParameterValue.b v) => some v
  | _ => none

/-- PBRMaterial constructor (PBRMaterial.cpp): default cached values,
then the default parameter writes u_Metallic, u_Roughness, u_AO,
u_Albedo, u_UseAlbedoTexture=false, u_UseNormalMap=false, u_UseIBL=false,
u_UseShadows=false. -/
def pbrMaterialInit : PBRMaterialState :=
  let m : PBRMaterialState :=
    { params := [], textureSlots := []
      mAlbedo := (1, 1, 1), mMetallic := 0, mRoughness := 1/2, mAO := 1
      mAlpha := 1, mLowerHemisphereIntensity := 1
      mUseIBL := false, mUseShadows := false
      mHasAlbedoTexture := false, mHasNormalTexture := false }
  ((((((((m.setFloatP "u_Metallic" 0).setFloatP "u_Roughness" (1/2)).setFloatP
    "u_AO" 1).setVec3P "u_Albedo" (1, 1, 1)).setBoolP "u_UseAlbedoTexture"
    false).setBoolP "u_UseNormalMap" false).setBoolP "u_UseIBL"
    false).setBoolP "u_UseShadows" false)

/-- PBRMaterial::SetAlbedo. -/
def PBRMaterialState.SetAlbedo (m : PBRMaterialState) (albedo : Vec3Q) :
    PBRMaterialState :=
  ({ m with mAlbedo := albedo }).setVec3P "u_Albedo" albedo

/-- PBRMaterial::SetMetallic: clamps to [0, 1]. -/
def PBRMaterialState.SetMetallic (m : PBRMaterialState) (metallic : ℚ) :
    PBRMaterialState :=
  let c := glmClamp metallic 0 1
  ({ m with mMetallic := c }).setFloatP "u_Metallic" c

/-- PBRMaterial::SetRoughness: clamps to [0.05, 1] (minimum 0.05 to avoid
singularities). -/
def PBRMaterialState.SetRoughness (m : PBRMaterialState) (roughness : ℚ) :
    PBRMaterialState :=
  let c := glmClamp roughness (1/20) 1
  ({ m with mRoughness := c }).setFloatP "u_Roughness" c

/-- PBRMaterial::SetAO: clamps to [0, 1]. -/
def PBRMaterialState.SetAO (m : PBRMaterialState) (ao : ℚ) : PBRMaterialState :=
  let c := glmClamp ao 0 1
  ({ m with mAO := c }).setFloatP "u_AO" c

/-- Modelled from the spec: PBRMaterial::SetAlpha is called from
ForwardRenderPath.cpp and SceneRenderer.cpp but its definition is not
among the sources; per the spec ("alpha ∈[0,1]") it clamps the stored
alpha to [0, 1]. -/
def PBRMaterialState.SetAlpha (m : PBRMaterialState) (alpha : ℚ) :
    PBRMaterialState :=
  { m with mAlpha := glmClamp alpha 0 1 }

/-- Modelled from the spec: PBRMaterial::SetLowerHemisphereIntensity is
called from ForwardRenderPath.cpp but its definition is not among the
sources; per the spec ("lower-hemisphere intensity ∈[0,2]") it clamps
the stored intensity to [0, 2]. -/
def PBRMaterialState.SetLowerHemisphereIntensity (m : PBRMaterialState)
    (intensity : ℚ) : PBRMaterialState :=
  { m with mLowerHemisphereIntensity := glmClamp intensity 0 2 }

/-- PBRMaterial::SetAlbedoTexture: non-null sets the texture at the
Albedo slot, the cached flag, and u_UseAlbedoTexture=true; null clears
the cached flag and sets u_UseAlbedoTexture=false (the slot entry is
left as it is). -/
def PBRMaterialState.SetAlbedoTexture (m : PBRMaterialState) (t : Option TexH) :
    PBRMaterialState :=
  match t with
  | some tx =>
    (({ m with mHasAlbedoTexture := true }).setTextureP "u_AlbedoTexture"
      (some tx) TextureSlots.Albedo false).setBoolP "u_UseAlbedoTexture" true
  | none =>
    ({ m with mHasAlbedoTexture := false }).setBoolP "u_UseAlbedoTexture" false

/-- PBRMaterial::SetNormalTexture. -/
def PBRMaterialState.SetNormalTexture (m : PBRMaterialState) (t : Option TexH) :
    PBRMaterialState :=
  match t with
  | some tx =>
    (({ m with mHasNormalTexture := true }).setTextureP "u_NormalTexture"
      (some tx) TextureSlots.Normal false).setBoolP "u_UseNormalMap" true
  | none =>
    ({ m with mHasNormalTexture := false }).setBoolP "u_UseNormalMap" false

/-- PBRMaterial::SetMetallicRoughnessTexture. -/
def PBRMaterialState.SetMetallicRoughnessTexture (m : PBRMaterialState)
    (t : Option TexH) : PBRMaterialState :=
  match t with
  | some tx =>
    (m.setTextureP "u_MetallicRoughnessTexture" (some tx)
      TextureSlots.MetallicRoughness false).setBoolP
      "u_UseMetallicRoughnessTexture" true
  | none => m.setBoolP "u_UseMetallicRoughnessTexture" false

/-- PBRMaterial::SetAOTexture. -/
def PBRMaterialState.SetAOTexture (m : PBRMaterialState) (t : Option TexH) :
    PBRMaterialState :=
  match t with
  | some tx =>
    (m.setTextureP "u_AOTexture" (some tx) TextureSlots.AO false).setBoolP
      "u_UseAOTexture" true
  | none => m.setBoolP "u_UseAOTexture" false

/-- PBRMaterial::SetEmissiveTexture. -/
def PBRMaterialState.SetEmissiveTexture (m : PBRMaterialState) (t : Option TexH) :
    PBRMaterialState :=
  match t with
  | some tx =>
    (m.setTextureP "u_EmissiveTexture" (some tx) TextureSlots.Emissive
      false).setBoolP "u_UseEmissiveTexture" true
  | none => m.setBoolP "u_UseEmissiveTexture" false

/-- PBRMaterial::SetIrradianceMap: null is ignored; non-null only sets
the cubemap texture slot (no boolean parameter is touched). -/
def PBRMaterialState.SetIrradianceMap (m : PBRMaterialState) (t : Option TexH) :
    PBRMaterialState :=
  match t with
  | some tx => m.setTextureP "u_IrradianceMap" (some tx) TextureSlots.Irradiance true
  | none => m

/-- PBRMaterial::SetPrefilteredMap: null is ignored; non-null only sets
the cubemap texture slot. -/
def PBRMaterialState.SetPrefilteredMap (m : PBRMaterialState) (t : Option TexH) :
    PBRMaterialState :=
  match t with
  | some tx => m.setTextureP "u_PrefilteredMap" (some tx) TextureSlots.Prefiltered true
  | none => m

/-- PBRMaterial::SetBRDFLUT: null is ignored; non-null only sets the
texture slot. -/
def PBRMaterialState.SetBRDFLUT (m : PBRMaterialState) (t : Option TexH) :
    PBRMaterialState :=
  match t with
  | some tx => m.setTextureP "u_BRDF_LUT" (some tx) TextureSlots.BRDF_LUT false
  | none => m

/-- PBRMaterial::SetUseIBL: the only writer of u_UseIBL. -/
def PBRMaterialState.SetUseIBL (m : PBRMaterialState) (useIBL : Bool) :
    PBRMaterialState :=
  ({ m with mUseIBL := useIBL }).setBoolP "u_UseIBL" useIBL

/-- PBRMaterial::SetShadowMap: null is ignored; non-null only sets the
texture slot (no boolean parameter is touched). -/
def PBRMaterialState.SetShadowMap (m : PBRMaterialState) (t : Option TexH) :
    PBRMaterialState :=
  match t with
  | some tx => m.setTextureP "u_ShadowMap" (some tx) TextureSlots.ShadowMap false
  | none => m

/-- PBRMaterial::SetUseShadows: the only writer of u_UseShadows. -/
def PBRMaterialState.SetUseShadows (m : PBRMaterialState) (useShadows : Bool) :
    PBRMaterialState :=
  ({ m with mUseShadows := useShadows }).setBoolP "u_UseShadows" useShadows

/-- Claim C3 as stated, instantiated at the shadow map (one of the seven
maps it quantifies over): a non-null SetShadowMap sets the use-shadows
boolean true and a null SetShadowMap sets it false. -/
def pbrShadowCouplingAsStated : Prop :=
  ∀ (m : PBRMaterialState) (t : TexH),
    (m.SetShadowMap (some t)).getBool "u_UseShadows" = some true ∧
    (m.SetShadowMap none).getBool "u_UseShadows" = some false

/-! Forward render path object ordering (ForwardRenderPath.cpp,
RenderSceneObjects). -/

/-- SceneObject fields relevant to draw ordering (Core/SceneObject.h):
the active flag, whether MeshPtr is non-null, the transform position and
the color alpha channel. -/
structure SceneObject where
  Active : Bool
  HasMesh : Bool
  Position : Vec3Q
  ColorA : ℚ
  Metallic : ℚ
  Roughness : ℚ
deriving DecidableEq

/-- Squared Euclidean distance between two points.  The source comparator
is glm::length(posA - cam) > glm::length(posB - cam); since the square
root is strictly monotone on nonnegative reals (see
sqrt_compare_iff_sq below), comparing lengths is equivalent to comparing
squared lengths, which stays inside the rationals. -/
def distSq (a b : Vec3Q) : ℚ :=
  (a.1 - b.1) * (a.1 - b.1) + (a.2.1 - b.2.1) * (a.2.1 - b.2.1) +
    (a.2.2 - b.2.2) * (a.2.2 - b.2.2)

/-- Squared camera distance of the object at index i (0 when the index
is out of range; the render path only forms it for in-range indices). -/
def objDistSq (scene : List SceneObject) (camPos : Vec3Q) (i : Nat) : ℚ :=
  match scene[i]? with
  | some o => distSq o.Position camPos
  | none => 0

/-- Indices collected into opaqueIndices by RenderSceneObjects: active,
meshed, and not Color.a < 1. -/
def opaqueIndices (scene : List SceneObject) : List Nat :=
  (scene.enum.filter fun p =>
    p.2.Active && p.2.HasMesh && !(decide (p.2.ColorA < 1))).map Prod.fst

/-- Indices collected into transparentIndices by RenderSceneObjects:
active, meshed, and Color.a < 1. -/
def transparentIndices (scene : List SceneObject) : List Nat :=
  (scene.enum.filter fun p =>
    p.2.Active && p.2.HasMesh && decide (p.2.ColorA < 1)).map Prod.fst

/-- The back-to-front order used by the std::sort comparator
(distA > distB): index a precedes index b when the distance of b does
not exceed the distance of a.  A strict comparator passed to std::sort
yields some permutation sorted by the reflexive closure of that
comparator, which this relation is. -/
def transparentOrder (scene : List SceneObject) (camPos : Vec3Q) :
    Nat → Nat → Prop :=
  fun a b => objDistSq scene camPos b ≤ objDistSq scene camPos a

instance (scene : List SceneObject) (camPos : Vec3Q) :
    DecidableRel (transparentOrder scene camPos) :=
  fun _ _ => inferInstanceAs (Decidable (_ ≤ _))

instance (scene : List SceneObject) (camPos : Vec3Q) :
    IsTotal Nat (transparentOrder scene camPos) :=
  ⟨fun _ _ => le_total _ _⟩

instance (scene : List SceneObject) (camPos : Vec3Q) :
    IsTrans Nat (transparentOrder scene camPos) :=
  ⟨fun _ _ _ hab hbc => le_trans hbc hab⟩

/-- Draw order produced by ForwardRenderPath::RenderSceneObjects: all
opaque indices in scene order, then the transparent indices sorted
back-to-front. -/
def renderOrder (scene : List SceneObject) (camPos : Vec3Q) : List Nat :=
  opaqueIndices scene ++
    List.insertionSort (transparentOrder scene camPos) (transparentIndices scene)

/-- Claim C2 as stated for the transparent phase: the sorted transparent
indices are strictly descending in camera distance. -/
def transparentStrictDescentAsStated (scene : List SceneObject)
    (camPos : Vec3Q) : Prop :=
  (List.insertionSort (transparentOrder scene camPos)
    (transparentIndices scene)).Pairwise
    (fun a b => objDistSq scene camPos b < objDistSq scene camPos a)

/-- Two active meshed transparent objects at the same position. -/
def tieScene : List SceneObject :=
  [{ Active := true, HasMesh := true, Position := (0, 0, 0), ColorA := 1/2,
     Metallic := 0, Roughness := 1/2 },
   { Active := true, HasMesh := true, Position := (0, 0, 0), ColorA := 1/2,
     Metallic := 0, Roughness := 1/2 }]

/-- Three transparent objects at camera distances 1, 5 and 3. -/
def demoScene : List SceneObject :=
  [{ Active := true, HasMesh := true, Position := (1, 0, 0), ColorA := 1/2,
     Metallic := 0, Roughness := 1/2 },
   { Active := true, HasMesh := true, Position := (5, 0, 0), ColorA := 1/2,
     Metallic := 0, Roughness := 1/2 },
   { Active := true, HasMesh := true, Position := (3, 0, 0), ColorA := 1/2,
     Metallic := 0, Roughness := 1/2 }]

/-! Scene renderer resize rollback (SceneRenderer.cpp, OnResize and
CreateHDRFramebuffer). -/

/-- Fields of SceneRenderer touched by OnResize: dimensions, the HDR
framebuffer and its color/depth attachments (GPU object ids, none for a
null shared_ptr), the HDR-enabled flag, and an allocation counter
standing for the ids fresh GPU objects receive. -/
structure SRState where
  width : ℤ
  height : ℤ
  hdrFB : Option Nat
  hdrColor : Option Nat
  hdrDepth : Option Nat
  hdrEnabled : Bool
  nextId : Nat
deriving DecidableEq

/-- SceneRenderer::CreateHDRFramebuffer: allocates a fresh color texture,
depth texture and framebuffer, attaches them, and sets m_HDREnabled to
whether the new framebuffer reports complete (envComplete gives the
completeness answer of the driver for each framebuffer id). -/
def createHDRFramebuffer (envComplete : Nat → Bool) (s : SRState) : SRState :=
  let color := s.nextId
  let depth := s.nextId + 1
  let fb := s.nextId + 2
  { s with hdrColor := some color, hdrDepth := some depth, hdrFB := some fb
           nextId := s.nextId + 3, hdrEnabled := envComplete fb }

/-- SceneRenderer::OnResize: non-positive sizes are ignored; otherwise
the dimensions are updated and the HDR framebuffer recreated; when the
new framebuffer is incomplete, the previous framebuffer, attachments and
dimensions are restored and HDR stays enabled exactly when the previous
framebuffer handle is non-null.  (In the success branch the render path
and post-process resizes touch none of these fields.) -/
def SRState.onResize (s : SRState) (envComplete : Nat → Bool) (w h : ℤ) :
    SRState :=
  if w ≤ 0 ∨ h ≤ 0 then s
  else
    let s1 := { s with width := w, height := h }
    let s2 := createHDRFramebuffer envComplete s1
    if s2.hdrEnabled = false then
      { s2 with hdrFB := s.hdrFB, hdrColor := s.hdrColor, hdrDepth := s.hdrDepth
                hdrEnabled := s.hdrFB.isSome, width := s.width, height := s.height }
    else
      s2

/-! Post-process pipeline (PostProcessPipeline.cpp, Process). -/

/-- GPU commands issued by PostProcessPipeline::Process against the
renderer and the tone-mapping shader. -/
inductive RenderCmd where
  | setViewport (x y w h : ℤ)
  | clear
  | disableDepthTest
  | enableDepthTest
  | bindToneMapShader
  | bindTexture (t : TexH) (slot : ℤ)
  | bindColorGradingLUT (slot : ℤ)
  | setInt (name : String) (v : ℤ)
  | setFloat (name : String) (v : ℚ)
  | setBool (name : String) (v : Bool)
  | renderQuad
deriving DecidableEq

/-- State of a PostProcessPipeline (PostProcessPipeline.h): validity, the
owned Bloom instance, the bloom/tone-mapping/color-grading settings, and
whether the neutral color-grading LUT was created. -/
structure PostProcessState where
  isValid : Bool
  bloom : BloomState
  enableBloom : Bool
  bloomThreshold : ℚ
  bloomKnee : ℚ
  bloomIntensity : ℚ
  bloomBlurPasses : ℤ
  toneMappingMode : ℤ
  exposure : ℚ
  gamma : ℚ
  whitePoint : ℚ
  enableColorGrading : Bool
  hasColorGradingLUT : Bool
  lutContribution : ℚ
  saturation : ℚ
  contrast : ℚ
  brightness : ℚ
deriving DecidableEq

/-- The Bloom instance as configured at the top of Process (SetThreshold,
SetKnee, SetBlurPasses with the pipeline settings). -/
def PostProcessState.bloomCfg (pp : PostProcessState) : BloomState :=
  ((pp.bloom.setThreshold pp.bloomThreshold).setKnee pp.bloomKnee).setBlurPasses
    pp.bloomBlurPasses

/-- The bloom texture produced this frame: Bloom::Process runs only when
bloom is enabled and the Bloom instance is valid. -/
def PostProcessState.bloomTexture (pp : PostProcessState) (hdr : Option TexH) :
    Option TexH :=
  if pp.enableBloom && pp.bloomCfg.isValid then (pp.bloomCfg.process hdr).1
  else none

/-- The value given to u_EnableBloom: the feature flag and the actual
availability of a bloom texture this frame. -/
def PostProcessState.enableBloomNow (pp : PostProcessState) (hdr : Option TexH) :
    Bool :=
  pp.enableBloom && (pp.bloomTexture hdr).isSome

/-- PostProcessPipeline::Process as the command trace it issues.  An
invalid pipeline or a null HDR texture issues nothing; otherwise the
viewport is set, the target cleared, depth testing disabled, the
tone-mapping shader bound and fed the HDR texture and scalar settings;
the bloom texture and its sampler uniform are bound exactly when
u_EnableBloom is set true, the LUT exactly when color grading is on and
the LUT exists; the quad is drawn and depth testing re-enabled. -/
def PostProcessState.processCmds (pp : PostProcessState) (hdr : Option TexH)
    (windowWidth windowHeight : ℤ) : List RenderCmd :=
  if pp.isValid = false then []
  else
    match hdr with
    | none => []
    | some hdrTex =>
      let bt := pp.bloomTexture (some hdrTex)
      let enableB := pp.enableBloom && bt.isSome
      let enableCG := pp.enableColorGrading && pp.hasColorGradingLUT
      [RenderCmd.setViewport 0 0 windowWidth windowHeight,
       RenderCmd.clear,
       RenderCmd.disableDepthTest,
       RenderCmd.bindToneMapShader,
       RenderCmd.bindTexture hdrTex TextureSlots.HDRBuffer,
       RenderCmd.setInt "u_HDRBuffer" TextureSlots.HDRBuffer,
       RenderCmd.setInt "u_ToneMappingMode" pp.toneMappingMode,
       RenderCmd.setFloat "u_Exposure" pp.exposure,
       RenderCmd.setFloat "u_Gamma" pp.gamma,
       RenderCmd.setFloat "u_WhitePoint" pp.whitePoint,
       RenderCmd.setBool "u_EnableBloom" enableB,
       RenderCmd.setFloat "u_BloomIntensity" pp.bloomIntensity] ++
      (match bt, enableB with
       | some t, true =>
         [RenderCmd.bindTexture t TextureSlots.BloomTexture,
          RenderCmd.setInt "u_BloomTexture" TextureSlots.BloomTexture]
       | _, _ => []) ++
      [RenderCmd.setBool "u_EnableColorGrading" enableCG,
       RenderCmd.setFloat "u_LUTContribution" pp.lutContribution,
       RenderCmd.setFloat "u_Saturation" pp.saturation,
       RenderCmd.setFloat "u_Contrast" pp.contrast,
       RenderCmd.setFloat "u_Brightness" pp.brightness] ++
      (if enableCG then
        [RenderCmd.bindColorGradingLUT TextureSlots.ColorGradingLUT,
         RenderCmd.setInt "u_ColorGradingLUT" TextureSlots.ColorGradingLUT]
       else []) ++
      [RenderCmd.renderQuad, RenderCmd.enableDepthTest]

/-- A concrete valid post-process pipeline with bloom enabled. -/
def demoPostProcess : PostProcessState :=
  { isValid := true, bloom := BloomState.init validBloomEnv, enableBloom := true
    bloomThreshold := 1, bloomKnee := 1/10, bloomIntensity := 1/25
    bloomBlurPasses := 5, toneMappingMode := 3, exposure := 1, gamma := 11/5
    whitePoint := 2, enableColorGrading := false, hasColorGradingLUT := true
    lutContribution := 1, saturation := 1, contrast := 1, brightness := 0 }

/-! Shadow pass light-space matrix (ShadowPass.cpp,
ComputeLightSpaceMatrix), over the reals since glm::normalize and
glm::lookAt take square roots. -/

/-- Real-valued model of glm::vec3 for the shadow math. -/
structure Vec3R where
  x : ℝ
  y : ℝ
  z : ℝ

/-- glm::dot. -/
noncomputable def dotR (a b : Vec3R) : ℝ := a.x * b.x + a.y * b.y + a.z * b.z

/-- glm::cross. -/
noncomputable def crossR (a b : Vec3R) : Vec3R :=
  ⟨a.y * b.z - a.z * b.y, a.z * b.x - a.x * b.z, a.x * b.y - a.y * b.x⟩

/-- Scalar multiple of a vector. -/
noncomputable def smulR (c : ℝ) (v : Vec3R) : Vec3R := ⟨c * v.x, c * v.y, c * v.z⟩

/-- Componentwise difference. -/
noncomputable def subR (a b : Vec3R) : Vec3R := ⟨a.x - b.x, a.y - b.y, a.z - b.z⟩

/-- glm::normalize: the vector divided by its Euclidean length. -/
noncomputable def normalizeR (v : Vec3R) : Vec3R :=
  smulR (1 / Real.sqrt (dotR v v)) v

/-- glm::lookAt (right-handed): rows s, u, -f with the translation
column, where f = normalize(center - eye), s = normalize(cross(f, up)),
u = cross(s, f). -/
noncomputable def lookAtR (eye center up : Vec3R) : Matrix (Fin 4) (Fin 4) ℝ :=
  let f := normalizeR (subR center eye)
  let s := normalizeR (crossR f up)
  let u := crossR s f
  !![s.x, s.y, s.z, -(dotR s eye);
     u.x, u.y, u.z, -(dotR u eye);
     -f.x, -f.y, -f.z, dotR f eye;
     0, 0, 0, 1]

/-- glm::ortho (right-handed, negative-one-to-one depth). -/
noncomputable def orthoR (l r b t n f : ℝ) : Matrix (Fin 4) (Fin 4) ℝ :=
  !![2/(r-l), 0, 0, -((r+l)/(r-l));
     0, 2/(t-b), 0, -((t+b)/(t-b));
     0, 0, -2/(f-n), -((f+n)/(f-n));
     0, 0, 0, 1]

/-- Up-vector choice in ComputeLightSpaceMatrix: world-up (0,1,0) unless
the magnitude of its dot product with the (normalized) light direction
exceeds 0.999, in which case world-forward (0,0,1). -/
noncomputable def shadowUpFor (lightDir : Vec3R) : Vec3R :=
  if |dotR lightDir ⟨0, 1, 0⟩| > 999/1000 then ⟨0, 0, 1⟩ else ⟨0, 1, 0⟩

/-- The light view matrix of ComputeLightSpaceMatrix: the light camera
sits at -normalize(direction) * 15 and looks at the origin with the
chosen up vector (ShadowPass.cpp; DirectionalLight::GetDirection
normalizes the stored direction, Light.h). -/
noncomputable def shadowLightView (direction : Vec3R) : Matrix (Fin 4) (Fin 4) ℝ :=
  lookAtR (smulR (-15) (normalizeR direction)) ⟨0, 0, 0⟩
    (shadowUpFor (normalizeR direction))

/-- ShadowPass::ComputeLightSpaceMatrix: orthographic projection of
half-extent 15 with near/far 0.1 and 30, times the light view. -/
noncomputable def computeLightSpaceMatrix (direction : Vec3R) :
    Matrix (Fin 4) (Fin 4) ℝ :=
  orthoR (-15) 15 (-15) 15 (1/10) 30 * shadowLightView direction

lemma blurIters_mem_exists {n : Nat} {src : TexH} {it : BlurIter}
    (h : it ∈ blurIters n src) : ∃ s, it = blurStep s := by
  induction n generalizing src with
  | zero => simp [blurIters] at h
  | succ n ih =>
    simp only [blurIters, List.mem_cons] at h
    rcases h with h | h
    · exact ⟨src, h⟩
    · exact ih h

lemma blurStep_intermediate_ne_source (src : TexH) :
    (blurStep src).intermediateTex ≠ src := by
  by_cases hs : src = TexH.blurTex1
  · subst hs; decide
  · simp only [blurStep, if_neg hs]
    exact fun h => hs h.symm

lemma blurStep_final_of_intermediate (src : TexH) :
    (blurStep src).finalTex =
      (if (blurStep src).intermediateTex = TexH.blurTex1
        then TexH.blurTex2 else TexH.blurTex1) := by
  by_cases hs : src = TexH.blurTex1 <;> simp [blurStep, hs]

lemma blurStep_intermediate_mem (src : TexH) :
    (blurStep src).intermediateTex = TexH.blurTex1 ∨
    (blurStep src).intermediateTex = TexH.blurTex2 := by
  by_cases hs : src = TexH.blurTex1 <;> simp [blurStep, hs]

lemma blurSubPasses_from_length (n : Nat) (src : TexH) :
    (List.foldr (fun (it : BlurIter) acc => it.subPasses ++ acc) []
      (blurIters n src)).length = 2 * n := by
  induction n generalizing src with
  | zero => rfl
  | succ n ih =>
    simp only [blurIters, List.foldr_cons, List.length_append, ih]
    simp [BlurIter.subPasses]
    omega

lemma blurSubPasses_length (n : Nat) : (blurSubPasses n).length = 2 * n :=
  blurSubPasses_from_length n TexH.extractTex

lemma blurSubPasses_mem {n : Nat} {p : TexH × TexH} (h : p ∈ blurSubPasses n) :
    ∃ it ∈ blurIters n TexH.extractTex, p ∈ it.subPasses := by
  unfold blurSubPasses at h
  generalize hb : blurIters n TexH.extractTex = l at *
  clear hb
  induction l with
  | nil => simp at h
  | cons it l ih =>
    simp only [List.foldr_cons, List.mem_append] at h
    rcases h with h | h
    · exact ⟨it, List.mem_cons_self it l, h⟩
    · obtain ⟨it2, hm, hp⟩ := ih h
      exact ⟨it2, List.mem_cons_of_mem it hm, hp⟩

lemma blurResultTex_not_external (n : Nat) (src : TexH) (i : Nat)
    (h : src ≠ TexH.external i) : blurResultTex n src ≠ TexH.external i := by
  induction n generalizing src with
  | zero => exact h
  | succ n ih =>
    apply ih
    by_cases hs : src = TexH.blurTex1 <;> simp [blurStep, hs]

lemma applyOps_isValid (b : BloomState) (l : List BloomOp) :
    (b.applyOps l).isValid = b.isValid := by
  induction l generalizing b with
  | nil => rfl
  | cons op ops ih =>
    cases op <;>
      simp [BloomState.applyOps, BloomState.applyOp, BloomState.setThreshold,
        BloomState.setKnee, BloomState.setIntensity, BloomState.setBlurPasses, ih]

/-- C1 (corrected).  For every blur-pass count N ≥ 1, Process on a
valid instance runs exactly 2N blur sub-passes (one horizontal then one
vertical per iteration); the intermediate target is whichever of
Blur1/Blur2 differs from the current source, the final target is the
other blur buffer (which from the second iteration on equals the current
source), and no sub-pass reads the texture backing the framebuffer it
writes. -/
theorem bloom_blur_pingpong (n : Nat) (b : BloomState) (t : TexH)
    (_hn : 1 ≤ n) (hb : b.isValid = true) (hp : b.blurPasses = (n : ℤ)) :
    (b.process (some t)).2 = (t, TexH.extractTex) :: blurSubPasses n ∧
    (blurSubPasses n).length = 2 * n ∧
    (∀ p ∈ blurSubPasses n, p.1 ≠ p.2) ∧
    (∀ it ∈ blurIters n TexH.extractTex,
      (it.intermediateTex = TexH.blurTex1 ∨ it.intermediateTex = TexH.blurTex2) ∧
      it.intermediateTex ≠ it.source ∧
      it.finalTex =
        (if it.intermediateTex = TexH.blurTex1 then TexH.blurTex2 else TexH.blurTex1)) := by
  refine ⟨?_, blurSubPasses_length n, ?_, ?_⟩
  · simp [BloomState.process, hb, hp]
  · intro p hp2
    obtain ⟨it, hm, hsub⟩ := blurSubPasses_mem hp2
    obtain ⟨s, rfl⟩ := blurIters_mem_exists hm
    simp only [BlurIter.subPasses, List.mem_cons, List.mem_singleton] at hsub
    rcases hsub with h | h | h
    · subst h
      exact fun hc => blurStep_intermediate_ne_source s hc.symm
    · subst h
      have h1 := blurStep_intermediate_mem s
      have h2 := blurStep_final_of_intermediate s
      rcases h1 with h1 | h1 <;> rw [h2, h1] <;> simp [h1]
    · simp at h
  · intro it hm
    obtain ⟨s, rfl⟩ := blurIters_mem_exists hm
    exact ⟨blurStep_intermediate_mem s, blurStep_intermediate_ne_source s,
      blurStep_final_of_intermediate s⟩

/-- Witness for bloom_blur_pingpong at the default blur-pass count 5 on a
validly constructed instance. -/
theorem bloom_blur_pingpong_witness :
    ((BloomState.init validBloomEnv).process (some (TexH.external 0))).2 =
        (TexH.external 0, TexH.extractTex) :: blurSubPasses 5 ∧
    (blurSubPasses 5).length = 2 * 5 ∧
    (∀ p ∈ blurSubPasses 5, p.1 ≠ p.2) ∧
    (∀ it ∈ blurIters 5 TexH.extractTex,
      (it.intermediateTex = TexH.blurTex1 ∨ it.intermediateTex = TexH.blurTex2) ∧
      it.intermediateTex ≠ it.source ∧
      it.finalTex =
        (if it.intermediateTex = TexH.blurTex1 then TexH.blurTex2 else TexH.blurTex1)) :=
  bloom_blur_pingpong 5 (BloomState.init validBloomEnv) (TexH.external 0)
    (by decide) (by decide) (by decide)

/-- Counterexample to C1 as stated: with N = 2 blur passes, the second
iteration has source Blur2 and final target Blur2, so the final target
is not a buffer different from the current source. -/
theorem bloom_pingpong_as_stated_false : ¬ bloomPingPongAsStated 2 := by
  unfold bloomPingPongAsStated
  decide

/-- C6.  When construction fails (here: any framebuffer incomplete or a
shader invalid makes init leave isValid false), the instance stays
invalid under every sequence of public operations, and every Process
call returns exactly the input handle with no passes executed. -/
theorem bloom_invalid_process_passthrough (env : BloomEnv) (ops : List BloomOp)
    (x : Option TexH) (h : (BloomState.init env).isValid = false) :
    ((BloomState.init env).applyOps ops).isValid = false ∧
    ((BloomState.init env).applyOps ops).process x = (x, []) := by
  have hv : ((BloomState.init env).applyOps ops).isValid = false :=
    (applyOps_isValid _ ops).trans h
  exact ⟨hv, by simp [BloomState.process, hv]⟩

/-- Witness for bloom_invalid_process_passthrough: a forced shader-load
failure, followed by a setter call, then Process on a concrete handle. -/
theorem bloom_invalid_process_passthrough_witness :
    ((BloomState.init invalidBloomEnv).applyOps [BloomOp.setBlurPasses 3]).isValid = false ∧
    ((BloomState.init invalidBloomEnv).applyOps [BloomOp.setBlurPasses 3]).process
        (some (TexH.external 7)) = (some (TexH.external 7), []) :=
  bloom_invalid_process_passthrough invalidBloomEnv [BloomOp.setBlurPasses 3]
    (some (TexH.external 7)) (by decide)

/-- Counterexample to C10 as stated: a validly constructed instance given
a null input also returns its argument unchanged (null = null), so
"returns its argument unchanged" does not imply invalidity. -/
theorem bloom_only_invalid_returns_input_false : ¬ bloomOnlyInvalidReturnsInput := by
  intro h
  have h1 : (((BloomState.init validBloomEnv)).process none).1 = none := by decide
  exact absurd (h _ none h1) (by decide)

/-- C10 (corrected).  A valid instance on null input returns null with no
extract or blur pass executed; an invalid instance returns its argument
unchanged with no passes; and on a valid instance every non-null external
input produces a result different from that input, so the two cases are
distinguishable for non-null inputs. -/
theorem bloom_null_vs_invalid (b : BloomState) :
    (b.isValid = true → b.process none = (none, [])) ∧
    (b.isValid = false → ∀ x, b.process x = (x, [])) ∧
    (b.isValid = true → ∀ i, (b.process (some (TexH.external i))).1 ≠ some (TexH.external i)) := by
  refine ⟨fun hv => by simp [BloomState.process, hv], fun hv x => by simp [BloomState.process, hv], ?_⟩
  intro hv i
  have hne := blurResultTex_not_external b.blurPasses.toNat TexH.extractTex i (by simp)
  simp only [BloomState.process, hv]
  simpa using hne

/-- Witness for bloom_null_vs_invalid on a validly constructed instance
and on a shader-failure instance. -/
theorem bloom_null_vs_invalid_witness :
    (BloomState.init validBloomEnv).process none = (none, []) ∧
    (BloomState.init invalidBloomEnv).process (some (TexH.external 4)) =
        (some (TexH.external 4), []) ∧
    ((BloomState.init validBloomEnv).process (some (TexH.external 4))).1 ≠
        some (TexH.external 4) :=
  ⟨(bloom_null_vs_invalid (BloomState.init validBloomEnv)).1 (by decide),
   (bloom_null_vs_invalid (BloomState.init invalidBloomEnv)).2.1 (by decide) _,
   (bloom_null_vs_invalid (BloomState.init validBloomEnv)).2.2 (by decide) 4⟩

lemma paramsGet_set_self (ps : List (String × MaterialParameterValue))
    (name : String) (v : MaterialParameterValue) :
    paramsGet (paramsSet ps name v) name = some v := by
  induction ps with
  | nil => simp [paramsSet, paramsGet]
  | cons p rest ih =>
    obtain ⟨k, w⟩ := p
    by_cases h : k = name
    · simp [paramsSet, paramsGet, h]
    · simp [paramsSet, paramsGet, h, ih]

lemma getBool_setBoolP_self (m : PBRMaterialState) (name : String) (v : Bool) :
    (m.setBoolP name v).getBool name = some v := by
  simp [PBRMaterialState.getBool, PBRMaterialState.setBoolP, paramsGet_set_self]

/-- Counterexample to C3 as stated: on the freshly constructed material,
SetShadowMap with a non-null texture leaves u_UseShadows at false rather
than setting it true (the shadow-map setter never touches a use-flag). -/
theorem pbr_shadow_coupling_as_stated_false : ¬ pbrShadowCouplingAsStated := by
  intro h
  have h1 := (h pbrMaterialInit (TexH.external 0)).1
  have h2 : (pbrMaterialInit.SetShadowMap (some (TexH.external 0))).getBool
      "u_UseShadows" = some false := rfl
  rw [h2] at h1
  cases h1

/-- C3 (corrected).  The five map setters with a use-flag (albedo,
normal, metallic-roughness, AO, emissive) set their flag true on a
non-null texture and false on null, and the albedo round trip ends with
u_UseAlbedoTexture = false; the shadow and IBL setters ignore null
entirely and never touch a use-flag (u_UseShadows and u_UseIBL are
written only by SetUseShadows and SetUseIBL). -/
theorem pbr_texture_flag_coupling (m : PBRMaterialState) (t : TexH) :
    ((m.SetAlbedoTexture (some t)).getBool "u_UseAlbedoTexture" = some true ∧
      (m.SetAlbedoTexture none).getBool "u_UseAlbedoTexture" = some false ∧
      ((m.SetAlbedoTexture (some t)).SetAlbedoTexture none).getBool
        "u_UseAlbedoTexture" = some false) ∧
    ((m.SetNormalTexture (some t)).getBool "u_UseNormalMap" = some true ∧
      (m.SetNormalTexture none).getBool "u_UseNormalMap" = some false) ∧
    ((m.SetMetallicRoughnessTexture (some t)).getBool
        "u_UseMetallicRoughnessTexture" = some true ∧
      (m.SetMetallicRoughnessTexture none).getBool
        "u_UseMetallicRoughnessTexture" = some false) ∧
    ((m.SetAOTexture (some t)).getBool "u_UseAOTexture" = some true ∧
      (m.SetAOTexture none).getBool "u_UseAOTexture" = some false) ∧
    ((m.SetEmissiveTexture (some t)).getBool "u_UseEmissiveTexture" = some true ∧
      (m.SetEmissiveTexture none).getBool "u_UseEmissiveTexture" = some false) ∧
    (m.SetShadowMap none = m ∧ m.SetIrradianceMap none = m ∧
      m.SetPrefilteredMap none = m ∧ m.SetBRDFLUT none = m) ∧
    ((m.SetShadowMap (some t)).getBool "u_UseShadows" = m.getBool "u_UseShadows" ∧
      (m.SetIrradianceMap (some t)).getBool "u_UseIBL" = m.getBool "u_UseIBL" ∧
      (m.SetPrefilteredMap (some t)).getBool "u_UseIBL" = m.getBool "u_UseIBL" ∧
      (m.SetBRDFLUT (some t)).getBool "u_UseIBL" = m.getBool "u_UseIBL") := by
  refine ⟨⟨?_, ?_, ?_⟩, ⟨?_, ?_⟩, ⟨?_, ?_⟩, ⟨?_, ?_⟩, ⟨?_, ?_⟩,
    ⟨rfl, rfl, rfl, rfl⟩, ⟨rfl, rfl, rfl, rfl⟩⟩ <;>
    apply getBool_setBoolP_self

lemma glmClamp_bounds (x lo hi : ℚ) (h : lo ≤ hi) :
    lo ≤ glmClamp x lo hi ∧ glmClamp x lo hi ≤ hi :=
  ⟨le_min (le_max_right x lo) h, min_le_right _ _⟩

/-- C5.  SetMetallic clamps to [0,1], SetRoughness to [0.05,1] (0 becomes
0.05 and 1.5 becomes 1), SetAO to [0,1], SetAlpha to [0,1] and
SetLowerHemisphereIntensity to [0,2]; each stored value is exactly the
glm::clamp of the input and lies in the stated interval. -/
theorem pbr_setters_clamp (m : PBRMaterialState) (x : ℚ) :
    ((m.SetMetallic x).mMetallic = glmClamp x 0 1 ∧
      0 ≤ (m.SetMetallic x).mMetallic ∧ (m.SetMetallic x).mMetallic ≤ 1) ∧
    ((m.SetRoughness x).mRoughness = glmClamp x (1/20) 1 ∧
      1/20 ≤ (m.SetRoughness x).mRoughness ∧ (m.SetRoughness x).mRoughness ≤ 1) ∧
    ((m.SetAO x).mAO = glmClamp x 0 1 ∧
      0 ≤ (m.SetAO x).mAO ∧ (m.SetAO x).mAO ≤ 1) ∧
    ((m.SetAlpha x).mAlpha = glmClamp x 0 1 ∧
      0 ≤ (m.SetAlpha x).mAlpha ∧ (m.SetAlpha x).mAlpha ≤ 1) ∧
    ((m.SetLowerHemisphereIntensity x).mLowerHemisphereIntensity = glmClamp x 0 2 ∧
      0 ≤ (m.SetLowerHemisphereIntensity x).mLowerHemisphereIntensity ∧
      (m.SetLowerHemisphereIntensity x).mLowerHemisphereIntensity ≤ 2) ∧
    (m.SetRoughness 0).mRoughness = 1/20 ∧
    (m.SetRoughness (3/2)).mRoughness = 1 := by
  have h01 := glmClamp_bounds x 0 1 (by norm_num)
  have h05 := glmClamp_bounds x (1/20) 1 (by norm_num)
  have h02 := glmClamp_bounds x 0 2 (by norm_num)
  exact ⟨⟨rfl, h01.1, h01.2⟩, ⟨rfl, h05.1, h05.2⟩, ⟨rfl, h01.1, h01.2⟩,
    ⟨rfl, h01.1, h01.2⟩, ⟨rfl, h02.1, h02.2⟩,
    (by norm_num [glmClamp, min_def, max_def] : glmClamp 0 (1/20) 1 = 1/20),
    (by norm_num [glmClamp, min_def, max_def] : glmClamp (3/2) (1/20) 1 = 1)⟩

lemma setTextureSlots_names (slots : List TextureSlot) (name : String)
    (t : Option TexH) (sl : ℤ) (cb : Bool) :
    (setTextureSlots slots name t sl cb).map TextureSlot.UniformName =
      if name ∈ slots.map TextureSlot.UniformName
      then slots.map TextureSlot.UniformName
      else slots.map TextureSlot.UniformName ++ [name] := by
  induction slots with
  | nil => simp [setTextureSlots]
  | cons ts rest ih =>
    by_cases h : ts.UniformName = name
    · simp [setTextureSlots, h]
    · have hne : ¬name = ts.UniformName := fun hh => h hh.symm
      by_cases hm : name ∈ rest.map TextureSlot.UniformName <;>
        simp [setTextureSlots, h, ih, hne, hm]

lemma findSlot_setTextureSlots_self (slots : List TextureSlot) (name : String)
    (t : Option TexH) (sl : ℤ) (cb : Bool) :
    findSlot (setTextureSlots slots name t sl cb) name = some ⟨name, t, sl, cb⟩ := by
  induction slots with
  | nil => simp [setTextureSlots, findSlot]
  | cons ts rest ih =>
    by_cases h : ts.UniformName = name
    · simp [setTextureSlots, findSlot, h]
    · simp [setTextureSlots, findSlot, h, ih]

lemma setTextureSlots_nodup (slots : List TextureSlot) (name : String)
    (t : Option TexH) (sl : ℤ) (cb : Bool)
    (h : (slots.map TextureSlot.UniformName).Nodup) :
    ((setTextureSlots slots name t sl cb).map TextureSlot.UniformName).Nodup := by
  rw [setTextureSlots_names]
  by_cases hm : name ∈ slots.map TextureSlot.UniformName
  · simpa [hm] using h
  · simp [hm, List.nodup_append, h]

lemma applySetTextures_nodup (calls : List SetTexCall) (slots : List TextureSlot)
    (h : (slots.map TextureSlot.UniformName).Nodup) :
    ((applySetTextures calls slots).map TextureSlot.UniformName).Nodup := by
  induction calls generalizing slots with
  | nil => exact h
  | cons c cs ih => exact ih _ (setTextureSlots_nodup _ _ _ _ _ h)

/-- C9.  SetTexture keeps at most one slot entry per uniform name: the
name list is unchanged when the name is already present (the entry is
updated in place to the new texture, slot and cubemap flag) and grows by
exactly that name otherwise; consequently any call sequence starting
from the empty material has pairwise distinct uniform names. -/
theorem setTexture_unique_per_name (slots : List TextureSlot) (name : String)
    (t : Option TexH) (sl : ℤ) (cb : Bool) (calls : List SetTexCall) :
    ((setTextureSlots slots name t sl cb).map TextureSlot.UniformName =
      if name ∈ slots.map TextureSlot.UniformName
      then slots.map TextureSlot.UniformName
      else slots.map TextureSlot.UniformName ++ [name]) ∧
    findSlot (setTextureSlots slots name t sl cb) name = some ⟨name, t, sl, cb⟩ ∧
    ((setTextureSlots slots name t sl cb).length =
      if name ∈ slots.map TextureSlot.UniformName
      then slots.length else slots.length + 1) ∧
    ((applySetTextures calls []).map TextureSlot.UniformName).Nodup := by
  refine ⟨setTextureSlots_names slots name t sl cb,
    findSlot_setTextureSlots_self slots name t sl cb, ?_,
    applySetTextures_nodup calls [] (by simp)⟩
  have hlen := congrArg List.length (setTextureSlots_names slots name t sl cb)
  by_cases hm : name ∈ slots.map TextureSlot.UniformName <;>
    simpa [hm] using hlen

/-- Monotonicity fact justifying the squared-distance comparator. -/
lemma sqrt_compare_iff_sq (x y : ℝ) (hx : 0 ≤ x) :
    Real.sqrt x < Real.sqrt y ↔ x < y :=
  Real.sqrt_lt_sqrt_iff hx

/-- Counterexample to C2 as stated: with two transparent objects at equal
camera distance the transparent phase cannot be strictly descending in
distance. -/
theorem transparent_strict_descent_false :
    ¬ transparentStrictDescentAsStated tieScene (0, 0, 0) := by
  intro h
  unfold transparentStrictDescentAsStated at h
  have ht : transparentIndices tieScene = [0, 1] := by
    norm_num [transparentIndices, tieScene, List.enum, List.enumFrom, List.filter]
  have hl : List.insertionSort (transparentOrder tieScene (0, 0, 0))
      (transparentIndices tieScene) = [0, 1] := by
    rw [ht]
    norm_num [List.insertionSort, List.orderedInsert, transparentOrder,
      objDistSq, tieScene, distSq]
  rw [hl] at h
  have h01 := (List.pairwise_cons.mp h).1 1 (by simp)
  have e0 : objDistSq tieScene (0, 0, 0) 0 = 0 := by
    norm_num [objDistSq, tieScene, distSq]
  have e1 : objDistSq tieScene (0, 0, 0) 1 = 0 := by
    norm_num [objDistSq, tieScene, distSq]
  rw [e0, e1] at h01
  exact lt_irrefl 0 h01

lemma opaqueIndices_mem {scene : List SceneObject} {i : Nat}
    (h : i ∈ opaqueIndices scene) :
    ∃ o, scene[i]? = some o ∧ o.Active = true ∧ o.HasMesh = true ∧
      ¬(o.ColorA < 1) := by
  unfold opaqueIndices at h
  simp only [List.mem_map, List.mem_filter] at h
  obtain ⟨⟨j, o⟩, ⟨hmem, hcond⟩, hfst⟩ := h
  rw [List.mem_enum_iff_getElem?] at hmem
  simp only [Bool.and_eq_true, Bool.not_eq_true', decide_eq_false_iff_not] at hcond
  exact hfst ▸ ⟨o, hmem, hcond.1.1, hcond.1.2, hcond.2⟩

lemma transparentIndices_mem {scene : List SceneObject} {i : Nat}
    (h : i ∈ transparentIndices scene) :
    ∃ o, scene[i]? = some o ∧ o.Active = true ∧ o.HasMesh = true ∧
      o.ColorA < 1 := by
  unfold transparentIndices at h
  simp only [List.mem_map, List.mem_filter] at h
  obtain ⟨⟨j, o⟩, ⟨hmem, hcond⟩, hfst⟩ := h
  rw [List.mem_enum_iff_getElem?] at hmem
  simp only [Bool.and_eq_true, decide_eq_true_eq] at hcond
  exact hfst ▸ ⟨o, hmem, hcond.1.1, hcond.1.2, hcond.2⟩

/-- C2 (corrected).  Rendering is two ordered phases with no
interleaving: the opaque indices (active, meshed, alpha = 1 whenever all
alphas are at most 1) in scene order, then the transparent indices
(active, meshed, alpha < 1) as a permutation sorted back-to-front, i.e.
with non-increasing squared camera distance; the order is strictly
descending whenever the transparent objects have pairwise distinct
camera distances, but only non-strictly descending in general. -/
theorem forward_two_phase_order (scene : List SceneObject) (camPos : Vec3Q)
    (halpha : ∀ o ∈ scene, o.ColorA ≤ 1) :
    renderOrder scene camPos =
      opaqueIndices scene ++
        List.insertionSort (transparentOrder scene camPos) (transparentIndices scene) ∧
    (∀ i ∈ opaqueIndices scene, ∃ o, scene[i]? = some o ∧
      o.Active = true ∧ o.HasMesh = true ∧ o.ColorA = 1) ∧
    (∀ i ∈ List.insertionSort (transparentOrder scene camPos)
        (transparentIndices scene),
      ∃ o, scene[i]? = some o ∧ o.Active = true ∧ o.HasMesh = true ∧
        o.ColorA < 1) ∧
    (List.insertionSort (transparentOrder scene camPos)
      (transparentIndices scene)).Perm (transparentIndices scene) ∧
    (List.insertionSort (transparentOrder scene camPos)
      (transparentIndices scene)).Pairwise
      (fun a b => objDistSq scene camPos b ≤ objDistSq scene camPos a) ∧
    ((transparentIndices scene).Pairwise
        (fun a b => objDistSq scene camPos a ≠ objDistSq scene camPos b) →
      (List.insertionSort (transparentOrder scene camPos)
        (transparentIndices scene)).Pairwise
        (fun a b => objDistSq scene camPos b < objDistSq scene camPos a)) := by
  refine ⟨rfl, ?_, ?_, List.perm_insertionSort _ _,
    List.sorted_insertionSort (transparentOrder scene camPos)
      (transparentIndices scene), ?_⟩
  · intro i hi
    obtain ⟨o, ho, ha, hm, hna⟩ := opaqueIndices_mem hi
    exact ⟨o, ho, ha, hm,
      le_antisymm (halpha o (List.getElem?_mem ho)) (not_lt.mp hna)⟩
  · intro i hi
    exact transparentIndices_mem
      ((List.perm_insertionSort (transparentOrder scene camPos)
        (transparentIndices scene)).mem_iff.mp hi)
  · intro hne
    have hsorted : (List.insertionSort (transparentOrder scene camPos)
        (transparentIndices scene)).Pairwise (transparentOrder scene camPos) :=
      List.sorted_insertionSort _ _
    have hne2 := ((List.perm_insertionSort (transparentOrder scene camPos)
      (transparentIndices scene)).pairwise_iff (fun h => h.symm)).mpr hne
    exact (hsorted.and hne2).imp (fun h => lt_of_le_of_ne h.1 (Ne.symm h.2))

/-- Witness for forward_two_phase_order on the spec scenario of three
transparent objects at distances 1, 5, 3. -/
theorem forward_two_phase_order_witness :
    renderOrder demoScene (0, 0, 0) =
      opaqueIndices demoScene ++
        List.insertionSort (transparentOrder demoScene (0, 0, 0))
          (transparentIndices demoScene) ∧
    (∀ i ∈ opaqueIndices demoScene, ∃ o, demoScene[i]? = some o ∧
      o.Active = true ∧ o.HasMesh = true ∧ o.ColorA = 1) ∧
    (∀ i ∈ List.insertionSort (transparentOrder demoScene (0, 0, 0))
        (transparentIndices demoScene),
      ∃ o, demoScene[i]? = some o ∧ o.Active = true ∧ o.HasMesh = true ∧
        o.ColorA < 1) ∧
    (List.insertionSort (transparentOrder demoScene (0, 0, 0))
      (transparentIndices demoScene)).Perm (transparentIndices demoScene) ∧
    (List.insertionSort (transparentOrder demoScene (0, 0, 0))
      (transparentIndices demoScene)).Pairwise
      (fun a b => objDistSq demoScene (0, 0, 0) b ≤ objDistSq demoScene (0, 0, 0) a) ∧
    ((transparentIndices demoScene).Pairwise
        (fun a b => objDistSq demoScene (0, 0, 0) a ≠ objDistSq demoScene (0, 0, 0) b) →
      (List.insertionSort (transparentOrder demoScene (0, 0, 0))
        (transparentIndices demoScene)).Pairwise
        (fun a b => objDistSq demoScene (0, 0, 0) b < objDistSq demoScene (0, 0, 0) a)) :=
  forward_two_phase_order demoScene (0, 0, 0) (by
    intro o ho
    simp only [demoScene, List.mem_cons, List.not_mem_nil, or_false] at ho
    rcases ho with rfl | rfl | rfl <;> norm_num)

/-- C7.  When the recreated HDR framebuffer is incomplete, OnResize
rolls back completely: width, height, framebuffer handle and both
attachments equal their pre-call values, and HDR remains enabled
whenever a prior framebuffer existed. -/
theorem sceneRenderer_resize_rollback (envComplete : Nat → Bool) (w h : ℤ)
    (s : SRState) (hw : 0 < w) (hh : 0 < h)
    (hfail : envComplete (s.nextId + 2) = false) :
    (s.onResize envComplete w h).width = s.width ∧
    (s.onResize envComplete w h).height = s.height ∧
    (s.onResize envComplete w h).hdrFB = s.hdrFB ∧
    (s.onResize envComplete w h).hdrColor = s.hdrColor ∧
    (s.onResize envComplete w h).hdrDepth = s.hdrDepth ∧
    (s.hdrFB.isSome = true → (s.onResize envComplete w h).hdrEnabled = true) := by
  have hcond : ¬(w ≤ 0 ∨ h ≤ 0) := by
    push_neg
    exact ⟨hw, hh⟩
  simp only [SRState.onResize, createHDRFramebuffer, hcond, if_false, hfail]
  simp [hfail]

/-- Witness for sceneRenderer_resize_rollback: a renderer at 800 x 600
with a valid framebuffer, resized to 1024 x 768 under a driver that
reports every new framebuffer incomplete. -/
theorem sceneRenderer_resize_rollback_witness :
    let s : SRState :=
      { width := 800, height := 600, hdrFB := some 2, hdrColor := some 0
        hdrDepth := some 1, hdrEnabled := true, nextId := 3 }
    (s.onResize (fun _ => false) 1024 768).width = s.width ∧
    (s.onResize (fun _ => false) 1024 768).height = s.height ∧
    (s.onResize (fun _ => false) 1024 768).hdrFB = s.hdrFB ∧
    (s.onResize (fun _ => false) 1024 768).hdrColor = s.hdrColor ∧
    (s.onResize (fun _ => false) 1024 768).hdrDepth = s.hdrDepth ∧
    (s.hdrFB.isSome = true → (s.onResize (fun _ => false) 1024 768).hdrEnabled = true) :=
  sceneRenderer_resize_rollback (fun _ => false) 1024 768 _
    (by norm_num) (by norm_num) rfl

/-- C8.  In every Process call on a valid pipeline with a non-null HDR
texture, u_EnableBloom is set (once) exactly to the conjunction of the
bloom feature flag with the availability of a bloom texture this frame,
the bloom texture and its sampler uniform are bound exactly when that
value is true, and a texture is never bound to the bloom slot when it is
false. -/
theorem postprocess_bloom_flag_texture_coupled (pp : PostProcessState)
    (hdrTex : TexH) (w h : ℤ) (hv : pp.isValid = true) :
    (∀ v, RenderCmd.setBool "u_EnableBloom" v ∈ pp.processCmds (some hdrTex) w h →
      v = pp.enableBloomNow (some hdrTex)) ∧
    (pp.enableBloomNow (some hdrTex) = true →
      ∃ t, pp.bloomTexture (some hdrTex) = some t ∧
        RenderCmd.bindTexture t TextureSlots.BloomTexture ∈
          pp.processCmds (some hdrTex) w h ∧
        RenderCmd.setInt "u_BloomTexture" TextureSlots.BloomTexture ∈
          pp.processCmds (some hdrTex) w h) ∧
    ((∃ t, RenderCmd.bindTexture t TextureSlots.BloomTexture ∈
        pp.processCmds (some hdrTex) w h) →
      pp.enableBloomNow (some hdrTex) = true) := by
  have hns : TextureSlots.BloomTexture ≠ TextureSlots.HDRBuffer := by
    norm_num [TextureSlots.BloomTexture, TextureSlots.HDRBuffer]
  cases hbt : pp.bloomTexture (some hdrTex) with
  | none =>
    have he : pp.enableBloomNow (some hdrTex) = (pp.enableBloom && false) := by
      rw [PostProcessState.enableBloomNow, hbt]
      rfl
    refine ⟨?_, ?_, ?_⟩
    · intro v hvmem
      simp only [PostProcessState.processCmds, hv, hbt, he] at hvmem ⊢
      simp at hvmem
      simp [hvmem]
    · intro htrue
      rw [he] at htrue
      simp at htrue
    · rintro ⟨t, htmem⟩
      simp only [PostProcessState.processCmds, hv, hbt] at htmem
      simp at htmem
      exact absurd htmem.2 hns
  | some t0 =>
    by_cases heb : pp.enableBloom
    · have he : pp.enableBloomNow (some hdrTex) = true := by
        rw [PostProcessState.enableBloomNow, hbt, heb]
        rfl
      refine ⟨?_, ?_, ?_⟩
      · intro v hvmem
        simp only [PostProcessState.processCmds, hv, hbt, heb, he] at hvmem ⊢
        simp at hvmem
        simp [hvmem]
      · intro _
        refine ⟨t0, rfl, ?_, ?_⟩ <;>
          simp [PostProcessState.processCmds, hv, hbt, heb]
      · intro _
        exact he
    · have heb2 : pp.enableBloom = false := by simpa using heb
      have he : pp.enableBloomNow (some hdrTex) = false := by
        rw [PostProcessState.enableBloomNow, heb2]
        rfl
      refine ⟨?_, ?_, ?_⟩
      · intro v hvmem
        simp only [PostProcessState.processCmds, hv, hbt, heb2, he] at hvmem ⊢
        simp at hvmem
        simp [hvmem]
      · intro htrue
        rw [he] at htrue
        cases htrue
      · rintro ⟨t, htmem⟩
        simp only [PostProcessState.processCmds, hv, hbt, heb2] at htmem
        simp at htmem
        exact absurd htmem.2 hns

/-- Witness for postprocess_bloom_flag_texture_coupled on a concrete
valid pipeline processing a concrete HDR texture. -/
theorem postprocess_bloom_flag_texture_coupled_witness :
    (∀ v, RenderCmd.setBool "u_EnableBloom" v ∈
        demoPostProcess.processCmds (some (TexH.external 0)) 800 600 →
      v = demoPostProcess.enableBloomNow (some (TexH.external 0))) ∧
    (demoPostProcess.enableBloomNow (some (TexH.external 0)) = true →
      ∃ t, demoPostProcess.bloomTexture (some (TexH.external 0)) = some t ∧
        RenderCmd.bindTexture t TextureSlots.BloomTexture ∈
          demoPostProcess.processCmds (some (TexH.external 0)) 800 600 ∧
        RenderCmd.setInt "u_BloomTexture" TextureSlots.BloomTexture ∈
          demoPostProcess.processCmds (some (TexH.external 0)) 800 600) ∧
    ((∃ t, RenderCmd.bindTexture t TextureSlots.BloomTexture ∈
        demoPostProcess.processCmds (some (TexH.external 0)) 800 600) →
      demoPostProcess.enableBloomNow (some (TexH.external 0)) = true) :=
  postprocess_bloom_flag_texture_coupled demoPostProcess (TexH.external 0) 800 600 rfl

/-- C4.  For every light direction the matrix is the stated orthographic
projection times the lookAt of a camera at -normalize(direction) * 15
aimed at the origin with the thresholded up-vector; for the straight-down
direction (0,-1,0) the up substitution triggers (the chosen up is
world-forward) and the resulting view matrix is explicitly computed and
non-singular (determinant 1). -/
theorem shadow_compute_light_space_matrix (d : Vec3R) :
    computeLightSpaceMatrix d =
      orthoR (-15) 15 (-15) 15 (1/10) 30 *
        lookAtR (smulR (-15) (normalizeR d)) ⟨0, 0, 0⟩
          (shadowUpFor (normalizeR d)) ∧
    normalizeR ⟨0, -1, 0⟩ = ⟨0, -1, 0⟩ ∧
    shadowUpFor (normalizeR ⟨0, -1, 0⟩) = ⟨0, 0, 1⟩ ∧
    shadowLightView ⟨0, -1, 0⟩ =
      !![-1, 0, 0, 0; 0, 0, 1, 0; 0, 1, 0, -15; 0, 0, 0, 1] ∧
    (shadowLightView ⟨0, -1, 0⟩).det ≠ 0 := by
  have h1 : normalizeR ⟨0, -1, 0⟩ = ⟨0, -1, 0⟩ := by
    unfold normalizeR dotR smulR
    norm_num
  have h2 : shadowUpFor ⟨0, -1, 0⟩ = ⟨0, 0, 1⟩ := by
    unfold shadowUpFor dotR
    rw [if_pos]
    norm_num
  have hview : shadowLightView ⟨0, -1, 0⟩ =
      !![-1, 0, 0, 0; 0, 0, 1, 0; 0, 1, 0, -15; 0, 0, 0, 1] := by
    unfold shadowLightView
    rw [h1, h2]
    unfold lookAtR normalizeR subR smulR crossR dotR
    have h225 : Real.sqrt 225 = 15 := by
      rw [show (225 : ℝ) = 15 ^ 2 by norm_num]
      exact Real.sqrt_sq (by norm_num)
    norm_num [h225]
  have hdet : (shadowLightView ⟨0, -1, 0⟩).det = 1 := by
    rw [hview]
    simp [Matrix.det_succ_row_zero, Fin.sum_univ_succ]
  exact ⟨rfl, h1, by rw [h1]; exact h2, hview, by rw [hdet]; exact one_ne_zero⟩
